import Mathlib

/-!
websocketd: the HTTP/WebSocket mux and the per-connection bridge.

A shallow embedding of `libwebsocketd/http.go` and `libwebsocketd/config.go`:

* `HttpWsMuxHandler.ServeHTTP` is a pure function from the request and the
  configuration to the handler it dispatches to;
* `acceptWebSocket` and `pipeEndpoints` are functions producing the ordered
  trace of the calls they make, given the results of the collaborators they
  call and the choices of `select`;
* `serveStatic` is a function from the results of `os.Stat` and `os.Open` to
  the response it writes.
-/

set_option autoImplicit false

namespace Websocketd

/-! ## Strings -/

/-- Go `unicode.ToLower`, exact on every rune whose image is an ASCII
character: `A`..`Z`, U+0130 (to `i`) and U+212A, the Kelvin sign (to `k`).
All other runes have a non-ASCII image in Go and are kept as they are here, so
a comparison of the lowered string with an ASCII literal gives Go's answer. -/
def unicodeToLower (c : Char) : Char :=
  if c.val = 0x130 then 'i'
  else if c.val = 0x212A then 'k'
  else c.toLower

/-- Go `strings.ToLower`: `unicode.ToLower` mapped over the runes. -/
def toLower (s : String) : String :=
  ⟨s.data.map unicodeToLower⟩

/-- Body of `replaceAll`: `skip` counts the runes of a match still to drop. -/
def replaceAux (old new : List Char) : Nat → List Char → List Char
  | _, [] => []
  | skip + 1, _ :: cs => replaceAux old new skip cs
  | 0, c :: cs =>
    if old.isPrefixOf (c :: cs) then new ++ replaceAux old new (old.length - 1) cs
    else c :: replaceAux old new 0 cs

/-- Go `strings.Replace(s, old, new, -1)` for a non-empty `old`: every
non-overlapping occurrence, leftmost first. -/
def replaceAll (s old new : String) : String :=
  ⟨replaceAux old.data new.data 0 s.data⟩

/-! ## Configuration (`config.go`) -/

/-- The `Config` struct; `StartupTime` is an abstract time stamp. -/
structure Config where
  CommandName : String
  CommandArgs : List String
  ReverseLookup : Bool
  ScriptDir : String
  UsingScriptDir : Bool
  StaticDir : String
  ServingStaticContent : Bool
  StartupTime : Nat
  DevConsole : Bool
  Env : List String
  deriving DecidableEq, Repr

/-! ## Requests and headers -/

/-- Go `http.Header`, a `map[string][]string`, as an association list read
through its first entry for a key. -/
abbrev Header := List (String × List String)

/-- The slice stored under `key` (`h[key]`), empty when the key is absent. -/
def Header.values (h : Header) (key : String) : List String :=
  match h.find? (fun e => e.1 == key) with
  | some e => e.2
  | none => []

/-- Go `Header.Get` for a key in canonical form (`Upgrade`, `Connection`,
`Origin`): the first value stored under the key, `""` when there is none. -/
def Header.Get (h : Header) (key : String) : String :=
  match h.values key with
  | [] => ""
  | v :: _ => v

/-- Go `Header.Set` for a key in canonical form: `h[key] = []string{value}`. -/
def Header.Set (h : Header) (key value : String) : Header :=
  (key, [value]) :: h.filter (fun e => !(e.1 == key))

/-- The parts of `*http.Request` the handlers read. -/
structure Request where
  Header : Header
  RemoteAddr : String
  Path : String
  RequestURI : String
  deriving DecidableEq, Repr

/-! ## `HttpWsMuxHandler.ServeHTTP` -/

/-- The handler `ServeHTTP` hands the request to. -/
inductive Dispatch where
  /-- The call `wsHandler.ServeHTTP(w, req)`, with the request as it is at that point. -/
  | webSocket (req : Request)
  /-- The call `http.ServeContent(w, req, name, modtime, content)` of the dev console. -/
  | devConsole (name : String) (modtime : Nat) (content : String)
  /-- The call `serveStatic(w, req, staticRoot, log)`. -/
  | static (staticRoot : String)
  /-- The call `http.NotFound(w, req)`. -/
  | notFound
  deriving DecidableEq, Repr

/-- The method `HttpWsMuxHandler.ServeHTTP`. `ConsoleContent` and `License` are string
constants of the package declared outside the two source files. -/
def ServeHTTP (ConsoleContent License : String) (config : Config) (req : Request) : Dispatch :=
  let hdrs := req.Header
  if toLower (hdrs.Get "Upgrade") == "websocket" && toLower (hdrs.Get "Connection") == "upgrade" then
    let hdrs := if hdrs.Get "Origin" == "null" then hdrs.Set "Origin" "file:" else hdrs
    Dispatch.webSocket { req with Header := hdrs }
  else if config.DevConsole then
    let content := replaceAll ConsoleContent "\x7b\x7blicense\x7d\x7d" License
    Dispatch.devConsole ".html" config.StartupTime content
  else if config.ServingStaticContent then
    Dispatch.static config.StaticDir
  else
    Dispatch.notFound

/-- Whether `ServeHTTP` took the WebSocket bridging path. -/
def Dispatch.isBridge : Dispatch → Bool
  | .webSocket _ => true
  | _ => false

/-- Two runes are the same letter up to case when their lower-case forms agree. -/
def sameLetter (a b : Char) : Bool :=
  unicodeToLower a == unicodeToLower b

/-- Case-insensitive equality of two rune sequences, rune by rune. -/
def equalsIgnoreCaseAux : List Char → List Char → Bool
  | [], [] => true
  | a :: as, b :: bs => sameLetter a b && equalsIgnoreCaseAux as bs
  | _, _ => false

/-- The words of the specification, "case-insensitively equals": the two
strings have the same length and agree rune by rune up to case. -/
def equalsIgnoreCase (s t : String) : Bool :=
  equalsIgnoreCaseAux s.data t.data

/-! ## Events of a session -/

/-- The levels of `LogScope` used by the handlers. -/
inductive Level where
  | error
  | access
  | debug
  | trace
  deriving DecidableEq, Repr

/-- One observable call made by `acceptWebSocket` or `pipeEndpoints`. -/
inductive Event where
  /-- A call `log.Error`, `log.Access`, `log.Debug` or `log.Trace` with its
  category and format string (the format arguments are not recorded). -/
  | log (level : Level) (category format : String)
  /-- A call `log.NewLevel(log.LogFunc)`. -/
  | newLevel
  /-- A call `log.Associate(key, value)`. -/
  | associate (key value : String)
  /-- A call `launchCmd(commandName, config.CommandArgs, env)`. -/
  | launchCmd (commandName : String) (args env : List String)
  /-- A call `NewProcessEndpoint(launched, log)`, with the pid of the process. -/
  | newProcessEndpoint (pid : Nat)
  /-- A call `NewWebSocketEndpoint(ws, log)`. -/
  | newWebSocketEndpoint
  /-- A `go` statement starting the named reader. -/
  | go (routine : String)
  /-- Entry into `pipeEndpoints(process, wsEndpoint, log)`. -/
  | pipeEndpoints
  /-- A call `wsEndpoint.Send(msg)` and the flag it returned. -/
  | wsSend (msg : String) (ok : Bool)
  /-- A call `process.Send(msg)` and the flag it returned. -/
  | processSend (msg : String) (ok : Bool)
  /-- A call `process.Terminate()`. -/
  | processTerminate
  /-- A call `ws.Close()`. -/
  | wsClose
  deriving DecidableEq, Repr

/-- The session-start event `log.Access("session", "CONNECT")`. -/
def CONNECT : Event := Event.log Level.access "session" "CONNECT"

/-- The session-end event `log.Access("session", "DISCONNECT")`. -/
def DISCONNECT : Event := Event.log Level.access "session" "DISCONNECT"

/-! ## `pipeEndpoints` -/

/-- What an endpoint's `Output()` channel will deliver: the messages its reader
goroutine publishes, in order, and whether the reader then closes the channel
(`true`) or leaves it open with nothing more to receive (`false`). -/
structure Chan where
  msgs : List String
  closes : Bool
  deriving DecidableEq, Repr

/-- A receive on the channel can proceed: a message is pending or it is closed. -/
def Chan.ready (c : Chan) : Bool :=
  !c.msgs.isEmpty || c.closes

/-- The two cases of the `select` in `pipeEndpoints`. -/
inductive Side where
  | process
  | socket
  deriving DecidableEq, Repr

/-- The case `select` runs: the scheduler's pick when that channel is ready,
the other case when only that one is ready, `none` when neither is (the
`select` then blocks for ever). -/
def select (pick : Side) (processOut socketOut : Chan) : Option Side :=
  match pick with
  | .process =>
    if processOut.ready then some .process
    else if socketOut.ready then some .socket
    else none
  | .socket =>
    if socketOut.ready then some .socket
    else if processOut.ready then some .process
    else none

/-- How far a run of `pipeEndpoints` got. -/
inductive PipeStatus where
  /-- The function executed a `return`. -/
  | returned
  /-- Both channels are open and empty: the `select` never proceeds. -/
  | blocked
  /-- The loop is still running where the list of picks ends. -/
  | running
  deriving DecidableEq, Repr

/-- The `for { select { ... } }` loop of `pipeEndpoints`, one iteration per
pick. `wsSend i m` is the flag returned by the call `wsEndpoint.Send(m)` that
follows `i` earlier calls, `processSend j m` the same for `process.Send`. -/
def pipeLoop (wsSend processSend : Nat → String → Bool) :
    List Side → Chan → Chan → Nat → Nat → List Event × PipeStatus
  | [], _, _, _, _ => ([], .running)
  | pick :: picks, processOut, socketOut, i, j =>
    match select pick processOut socketOut with
    | none => ([], .blocked)
    | some .process =>
      match processOut.msgs with
      | msgFromProcess :: rest =>
        let ok := wsSend i msgFromProcess
        let here := [Event.log .trace "send<-" "%s", Event.wsSend msgFromProcess ok]
        if !ok then (here, .returned)
        else
          let r := pipeLoop wsSend processSend picks { processOut with msgs := rest } socketOut (i + 1) j
          (here ++ r.1, r.2)
      | [] => ([Event.log .trace "process" "Process terminated"], .returned)
    | some .socket =>
      match socketOut.msgs with
      | msgFromSocket :: rest =>
        let ok := processSend j msgFromSocket
        let here := [Event.log .trace "recv->" "%s", Event.processSend msgFromSocket ok]
        let r := pipeLoop wsSend processSend picks processOut { socketOut with msgs := rest } i (j + 1)
        (here ++ r.1, r.2)
      | [] => ([Event.log .trace "websocket" "WebSocket connection closed"], .returned)

/-- Everything outside `pipeEndpoints` that decides one run of it. -/
structure Bridge where
  processOut : Chan
  socketOut : Chan
  wsSend : Nat → String → Bool
  processSend : Nat → String → Bool
  picks : List Side

/-- The function `pipeEndpoints`: its calls in order, and how far it got. -/
def pipeEndpoints (b : Bridge) : List Event × PipeStatus :=
  pipeLoop b.wsSend b.processSend b.picks b.processOut b.socketOut 0 0

/-- The messages passed to `wsEndpoint.Send`, in call order. -/
def sentToSocket : List Event → List String
  | [] => []
  | Event.wsSend m _ :: es => m :: sentToSocket es
  | _ :: es => sentToSocket es

/-- The messages passed to `process.Send`, in call order. -/
def sentToProcess : List Event → List String
  | [] => []
  | Event.processSend m _ :: es => m :: sentToProcess es
  | _ :: es => sentToProcess es

/-- The events after the first call of `wsEndpoint.Send` that returned `false`
(`none` when no such call is in the trace). -/
def afterFailedWsSend : List Event → Option (List Event)
  | [] => none
  | Event.wsSend _ false :: es => some es
  | _ :: es => afterFailedWsSend es

/-- The events after the first call of `process.Send` that returned `false`
(`none` when no such call is in the trace). -/
def afterFailedProcessSend : List Event → Option (List Event)
  | [] => none
  | Event.processSend _ false :: es => some es
  | _ :: es => afterFailedProcessSend es

/-- The trace relays a message: it holds a call of either `Send`. -/
def relays : List Event → Bool
  | [] => false
  | Event.wsSend _ _ :: _ => true
  | Event.processSend _ _ :: _ => true
  | _ :: es => relays es

/-- The calls `pipeEndpoints` makes: trace-level logging and the two sends. -/
def Event.inPipe : Event → Bool
  | .log .trace _ _ => true
  | .wsSend _ _ => true
  | .processSend _ _ => true
  | _ => false

/-! ## `acceptWebSocket` -/

/-- The record returned by `parsePath`, declared outside the two source files;
`FilePath` is the field `acceptWebSocket` reads. -/
structure URLInfo where
  FilePath : String
  deriving DecidableEq, Repr

/-- The record returned by `launchCmd`, declared outside the two source files;
`pid` stands for `launched.cmd.Process.Pid`. -/
structure LaunchedProcess where
  pid : Nat
  deriving DecidableEq, Repr

/-- The functions of the package that `acceptWebSocket` calls and that are
declared outside the two source files, each with the result it gives in this
session; a Go `error` is its message. -/
structure Collaborators where
  generateId : String
  remoteDetails : Request → Config → Except String (String × String × String)
  parsePath : String → Config → Except String URLInfo
  createEnv : Request → Config → URLInfo → String → Except String (List String)
  launchCmd : String → List String → List String → Except String LaunchedProcess

/-- One run of `acceptWebSocket`: its calls in order, and whether it returned. -/
structure Run where
  trace : List Event
  returned : Bool
  deriving DecidableEq, Repr

/-- A `return` of the function: the calls made so far, then the deferred calls,
last deferred first (`defers` is the defer stack, its top at the head). -/
def returnWith (body defers : List Event) : Run :=
  ⟨body ++ defers, true⟩

/-- The function `acceptWebSocket`; `ws` is the request behind the connection
and `b` decides what happens inside `pipeEndpoints`. -/
def acceptWebSocket (c : Collaborators) (b : Bridge) (ws : Request) (config : Config) : Run :=
  -- defer ws.Close()
  let d1 := [Event.wsClose]
  let req := ws
  let id := c.generateId
  match c.remoteDetails ws config with
  | .error _ =>
    returnWith [Event.log .error "session" "Could not understand remote address '%s': %s"] d1
  | .ok (_, remoteHost, _) =>
    let t1 := [Event.newLevel,
      Event.associate "id" id,
      Event.associate "url" ("http://" ++ req.RemoteAddr ++ req.RequestURI),
      Event.associate "origin" (req.Header.Get "Origin"),
      Event.associate "remote" remoteHost,
      Event.log .access "session" "CONNECT"]
    -- defer log.Access("session", "DISCONNECT")
    let d2 := Event.log .access "session" "DISCONNECT" :: d1
    match c.parsePath ws.Path config with
    | .error _ =>
      returnWith (t1 ++ [Event.log .access "session" "NOT FOUND: %s"]) d2
    | .ok urlInfo =>
      let t2 := t1 ++ [Event.log .debug "session" "URLInfo: %s"]
      match c.createEnv ws config urlInfo id with
      | .error _ =>
        returnWith (t2 ++ [Event.log .error "process" "Could not create ENV: %s"]) d2
      | .ok env =>
        let commandName := if config.UsingScriptDir then urlInfo.FilePath else config.CommandName
        let t3 := t2 ++ [Event.associate "command" commandName,
          Event.launchCmd commandName config.CommandArgs env]
        match c.launchCmd commandName config.CommandArgs env with
        | .error _ =>
          returnWith (t3 ++ [Event.log .error "process" "Could not launch process %s %s (%s)"]) d2
        | .ok launched =>
          let t4 := t3 ++ [Event.associate "pid" (toString launched.pid),
            Event.newProcessEndpoint launched.pid,
            Event.newWebSocketEndpoint]
          -- defer process.Terminate()
          let d3 := Event.processTerminate :: d2
          let t5 := t4 ++ [Event.go "process.ReadOutput",
            Event.go "wsEndpoint.ReadOutput",
            Event.go "process.pipeStdErr",
            Event.pipeEndpoints]
          match pipeEndpoints b with
          | (tp, .returned) => returnWith (t5 ++ tp) d3
          | (tp, _) => ⟨t5 ++ tp, false⟩

/-- Both events occur in the trace and `a` first occurs before `b` does: going
through the trace, `a` is met before any `b`, and a `b` follows it. -/
def happensBefore (a b : Event) : List Event → Bool
  | [] => false
  | e :: es =>
    if e = b then false
    else if e = a then decide (b ∈ es)
    else happensBefore a b es

/-- The call returned an error. -/
def isError {ε α : Type} : Except ε α → Bool
  | .error _ => true
  | .ok _ => false

/-- The call of `remoteDetails` returns an error. -/
def remoteDetailsFails (c : Collaborators) (ws : Request) (config : Config) : Bool :=
  isError (c.remoteDetails ws config)

/-- The call of `parsePath` returns an error. -/
def parsePathFails (c : Collaborators) (ws : Request) (config : Config) : Bool :=
  isError (c.parsePath ws.Path config)

/-- The call of `createEnv`, on the result of `parsePath`, returns an error. -/
def createEnvFails (c : Collaborators) (ws : Request) (config : Config) : Bool :=
  match c.parsePath ws.Path config with
  | .error _ => false
  | .ok urlInfo => isError (c.createEnv ws config urlInfo c.generateId)

/-- The call of `launchCmd`, on the results of `parsePath` and `createEnv`,
returns an error. -/
def launchCmdFails (c : Collaborators) (ws : Request) (config : Config) : Bool :=
  match c.parsePath ws.Path config with
  | .error _ => false
  | .ok urlInfo =>
    match c.createEnv ws config urlInfo c.generateId with
    | .error _ => false
    | .ok env =>
      isError (c.launchCmd (if config.UsingScriptDir then urlInfo.FilePath else config.CommandName)
        config.CommandArgs env)

/-- The process launched: no call up to and including `launchCmd` returns an error. -/
def launched (c : Collaborators) (ws : Request) (config : Config) : Bool :=
  !remoteDetailsFails c ws config && !parsePathFails c ws config &&
    !createEnvFails c ws config && !launchCmdFails c ws config

/-- An endpoint was created: the trace holds a call of either constructor. -/
def createsEndpoint : List Event → Bool
  | [] => false
  | Event.newProcessEndpoint _ :: _ => true
  | Event.newWebSocketEndpoint :: _ => true
  | _ :: es => createsEndpoint es

/-- The process was launched: the trace holds a call of `launchCmd`. -/
def invokesLaunchCmd : List Event → Bool
  | [] => false
  | Event.launchCmd _ _ _ :: _ => true
  | _ :: es => invokesLaunchCmd es

/-! ## `serveStatic` -/

/-- What `os.IsNotExist` and `os.IsPermission` tell about an error. -/
inductive ErrKind where
  /-- The error satisfies `os.IsNotExist`. -/
  | notExist
  /-- The error satisfies `os.IsPermission`. -/
  | permission
  /-- The error satisfies neither. -/
  | other
  deriving DecidableEq, Repr

/-- A non-nil `error` returned by `os.Stat` or `os.Open`; `text` is `err.Error()`. -/
structure OsError where
  kind : ErrKind
  text : String
  deriving DecidableEq, Repr

/-- Go `os.IsNotExist(err)` for the error result of a call (`nil` on success). -/
def IsNotExist {α : Type} : Except OsError α → Bool
  | .error e => e.kind == ErrKind.notExist
  | .ok _ => false

/-- Go `os.FileInfo`, as far as `serveStatic` reads it. -/
structure FileInfo where
  ModTime : Nat
  deriving DecidableEq, Repr

/-- The library and system calls of `serveStatic`; `Open` gives the content
of the opened file. -/
structure FileSystem where
  Join : String → String → String
  FromSlash : String → String
  Split : String → String × String
  Stat : String → Except OsError FileInfo
  Open : String → Except OsError String

/-- What `serveStatic` does with the response writer. -/
inductive Response where
  /-- A call `http.Error(w, body, code)`. -/
  | error (body : String) (code : Nat)
  /-- A call `http.ServeContent(w, req, name, modtime, content)`. -/
  | serveContent (name : String) (modtime : Nat) (content : String)
  /-- A nil dereference: `fileinfo.ModTime()` with the nil `fileinfo` that
  `os.Stat` returns next to an error. -/
  | nilDereference
  deriving DecidableEq, Repr

/-- Go `http.NotFound(w, req)`, which is `Error(w, "404 page not found", 404)`. -/
def NotFound : Response :=
  Response.error "404 page not found" 404

/-- Go `http.StatusForbidden`. -/
def StatusForbidden : Nat := 403

/-- Go `http.StatusBadRequest`. -/
def StatusBadRequest : Nat := 400

/-- The status code of an error response. -/
def Response.status : Response → Option Nat
  | .error _ code => some code
  | _ => none

/-- File content is handed to `http.ServeContent`. -/
def Response.servesContent : Response → Bool
  | .serveContent _ _ _ => true
  | _ => false

/-- The function `serveStatic`: the response, and the calls of the logger. -/
def serveStatic (fs : FileSystem) (urlPath staticRoot : String) : Response × List Event :=
  let path := fs.Join staticRoot (fs.FromSlash urlPath)
  let filename := (fs.Split path).2
  let fileinfo := fs.Stat path
  if IsNotExist fileinfo then (NotFound, [])
  else
    match fs.Open path with
    | .error err =>
      if err.kind == ErrKind.permission then
        (Response.error "permission denied" StatusForbidden, [])
      else
        (Response.error err.text StatusBadRequest, [Event.log .error "server" "opening %s: %s"])
    | .ok file =>
      match fileinfo with
      | .ok info => (Response.serveContent filename info.ModTime file, [])
      | .error _ => (Response.nilDereference, [])

/-! ## A disk behind `serveStatic` -/

/-- One file or directory of a disk, under its absolute, clean path. -/
structure Entry where
  path : String
  isDir : Bool
  readable : Bool
  content : String
  modTime : Nat
  deriving DecidableEq, Repr

/-- A disk: its files and directories; the root directory `/` is implicit. -/
abbrev Disk := List Entry

/-- Body of `components`; `acc` is the current component, reversed. -/
def componentsAux : List Char → List Char → List String
  | [], acc => if acc.isEmpty then [] else [String.mk acc.reverse]
  | c :: cs, acc =>
    if c = '/' then
      if acc.isEmpty then componentsAux cs []
      else String.mk acc.reverse :: componentsAux cs []
    else componentsAux cs (c :: acc)

/-- The non-empty components of a slash-separated path. -/
def components (path : String) : List String :=
  componentsAux path.data []

/-- Lexical cleaning of the components of an absolute path, as Go
`filepath.Clean` does it: `.` is dropped and `..` removes the component before
it (`done` holds the cleaned components, last first). -/
def cleanComponents : List String → List String → List String
  | [], done => done.reverse
  | c :: cs, done =>
    if c = "." then cleanComponents cs done
    else if c = ".." then cleanComponents cs done.tail
    else cleanComponents cs (c :: done)

/-- Go `filepath.Join(root, path)` on Unix for an absolute `root`: the two
joined by a separator, then cleaned. -/
def unixJoin (root path : String) : String :=
  "/" ++ "/".intercalate (cleanComponents (components root ++ components path) [])

/-- Body of `unixSplit`: the text up to and including the last separator, and
the text after it. -/
def unixSplitAux : List Char → List Char × List Char
  | [] => ([], [])
  | c :: cs =>
    let r := unixSplitAux cs
    if c = '/' then (c :: r.1, r.2)
    else if r.1.isEmpty then ([], c :: r.2)
    else (c :: r.1, r.2)

/-- Go `filepath.Split` on Unix: the directory, with its final separator, and
the file name. -/
def unixSplit (path : String) : String × String :=
  (String.mk (unixSplitAux path.data).1, String.mk (unixSplitAux path.data).2)

/-- Path resolution from the directory `cur` through the remaining components:
a missing component is `ENOENT` (an `os.IsNotExist` error), a regular file
where a directory is needed is `ENOTDIR` (which `os.IsNotExist` rejects).
`op` and `full` are the system call and path of the error text. -/
def walk (disk : Disk) (op full : String) : String → List String → Except OsError Entry
  | cur, [] =>
    match disk.find? (fun e => e.path == cur) with
    | some e => .ok e
    | none => .ok ⟨"/", true, true, "", 0⟩
  | cur, name :: rest =>
    match disk.find? (fun e => e.path == cur ++ "/" ++ name) with
    | none => .error ⟨.notExist, op ++ " " ++ full ++ ": no such file or directory"⟩
    | some e =>
      if rest.isEmpty then .ok e
      else if e.isDir then walk disk op full (cur ++ "/" ++ name) rest
      else .error ⟨.other, op ++ " " ++ full ++ ": not a directory"⟩

/-- The path names a file or directory of the disk. -/
def pathExists (disk : Disk) (path : String) : Bool :=
  match walk disk "stat" path "" (components path) with
  | .ok _ => true
  | .error _ => false

/-- The system call `stat` on the disk. -/
def diskStat (disk : Disk) (path : String) : Except OsError FileInfo :=
  match walk disk "stat" path "" (components path) with
  | .ok e => .ok ⟨e.modTime⟩
  | .error err => .error err

/-- The system call `open` for reading on the disk: `EACCES` (an
`os.IsPermission` error) when the file is not readable. -/
def diskOpen (disk : Disk) (path : String) : Except OsError String :=
  match walk disk "open" path "" (components path) with
  | .ok e =>
    if e.readable then .ok e.content
    else .error ⟨.permission, "open " ++ path ++ ": permission denied"⟩
  | .error err => .error err

/-- The library and system calls of `serveStatic` on a Unix disk. -/
def diskFileSystem (disk : Disk) : FileSystem :=
  ⟨unixJoin, fun path => path, unixSplit, diskStat disk, diskOpen disk⟩

/-! ## Sample inputs -/

/-- A configuration with a fixed command, static serving and no dev console. -/
def sampleConfig : Config :=
  ⟨"cat", ["-u"], false, "", false, "/srv/static", true, 1700000000, false, []⟩

/-- An upgrade request from a `file://` page: mixed-case handshake headers and
the origin `null`. -/
def sampleRequest : Request :=
  ⟨[("Upgrade", ["WebSocket"]), ("Connection", ["Upgrade"]), ("Origin", ["null"])],
    "192.0.2.1:4711", "/echo", "/echo?x=1"⟩

/-- A plain request for a static file. -/
def plainRequest : Request :=
  ⟨[("Accept", ["*/*"])], "192.0.2.1:4712", "/index.txt", "/index.txt"⟩

/-- Collaborators that all succeed. -/
def sampleCollaborators : Collaborators :=
  ⟨"id-1", fun _ _ => .ok ("192.0.2.1", "192.0.2.1", "4711"), fun path _ => .ok ⟨path⟩,
    fun _ _ _ _ => .ok ["REMOTE_ADDR=192.0.2.1"], fun _ _ _ => .ok ⟨4242⟩⟩

/-- Collaborators whose `remoteDetails` cannot parse the remote address. -/
def badAddressCollaborators : Collaborators :=
  { sampleCollaborators with remoteDetails := fun _ _ => .error "missing port in address" }

/-- Collaborators whose `launchCmd` cannot start the process. -/
def noSpawnCollaborators : Collaborators :=
  { sampleCollaborators with launchCmd := fun _ _ _ => .error "executable file not found" }

/-- A bridge in which the process writes two lines and exits, the peer sends
two messages, and every send succeeds. -/
def sampleBridge : Bridge :=
  ⟨⟨["p1", "p2"], true⟩, ⟨["s1", "s2"], false⟩, fun _ _ => true, fun _ _ => true,
    [.socket, .process, .socket, .socket, .process, .process]⟩

/-- A disk with the static root `/srv/static`, holding the readable file
`index.txt` with the content `ok` and the unreadable file `secret.txt`. -/
def sampleDisk : Disk :=
  [⟨"/srv", true, true, "", 1700000000⟩,
    ⟨"/srv/static", true, true, "", 1700000000⟩,
    ⟨"/srv/static/index.txt", false, true, "ok", 1700000001⟩,
    ⟨"/srv/static/secret.txt", false, false, "hidden", 1700000002⟩]

/-- The file system of `sampleDisk`. -/
def sampleFileSystem : FileSystem :=
  diskFileSystem sampleDisk

/-! ## The mux: upgrade detection, origin fix-up, fall-through order -/

theorem equalsIgnoreCaseAux_iff (a b : List Char) :
    equalsIgnoreCaseAux a b = true ↔ a.map unicodeToLower = b.map unicodeToLower := by
  induction a generalizing b with
  | nil => cases b <;> simp [equalsIgnoreCaseAux]
  | cons x xs ih =>
    cases b with
    | nil => simp [equalsIgnoreCaseAux]
    | cons y ys => simp [equalsIgnoreCaseAux, sameLetter, ih]

/-- Comparing the lowered string with a string that lowering fixes is
case-insensitive equality with that string. -/
theorem toLower_beq_iff (s t : String) (ht : toLower t = t) :
    (toLower s == t) = true ↔ equalsIgnoreCase s t = true := by
  rw [beq_iff_eq, equalsIgnoreCase, equalsIgnoreCaseAux_iff]
  constructor
  · intro h
    have h1 : (toLower s).data = (toLower t).data := by rw [h, ht]
    exact h1
  · intro h
    rw [← ht]
    show String.mk _ = String.mk _
    rw [h]

theorem toLower_websocket : toLower "websocket" = "websocket" := by decide

theorem toLower_upgrade : toLower "upgrade" = "upgrade" := by decide

/-- The condition of the first branch of `ServeHTTP`, in the words of the
specification. -/
theorem upgrade_cond_iff (hdrs : Header) :
    (toLower (hdrs.Get "Upgrade") == "websocket" && toLower (hdrs.Get "Connection") == "upgrade") = true ↔
      (equalsIgnoreCase (hdrs.Get "Upgrade") "websocket" = true ∧
        equalsIgnoreCase (hdrs.Get "Connection") "upgrade" = true) := by
  rw [Bool.and_eq_true, toLower_beq_iff _ _ toLower_websocket, toLower_beq_iff _ _ toLower_upgrade]

theorem values_Set_same (h : Header) (key value : String) :
    (h.Set key value).values key = [value] := by
  simp [Header.Set, Header.values]

theorem find_filter_other (h : Header) (key k : String) (hk : k ≠ key) :
    (h.filter (fun e => !(e.1 == key))).find? (fun e => e.1 == k) =
      h.find? (fun e => e.1 == k) := by
  induction h with
  | nil => rfl
  | cons e es ih =>
    by_cases he : e.1 = key
    · have hek : ¬ e.1 = k := fun h2 => hk (h2.symm.trans he)
      have h1 : (e.1 == key) = true := by simpa using he
      have h2 : (e.1 == k) = false := by simpa using hek
      rw [List.filter_cons, List.find?_cons]
      simp only [h1, h2, Bool.not_true]
      exact ih
    · have h1 : (e.1 == key) = false := by simpa using he
      rw [List.filter_cons]
      simp only [h1, Bool.not_false, if_true, List.find?_cons]
      cases hek : (e.1 == k)
      · exact ih
      · rfl

theorem values_Set_other (h : Header) (key value k : String) (hk : k ≠ key) :
    (h.Set key value).values k = h.values k := by
  have hk2 : (key == k) = false := by
    simpa using fun e => hk e.symm
  simp only [Header.Set, Header.values, List.find?_cons, hk2]
  rw [find_filter_other h key k hk]

/-- C1. `ServeHTTP` takes the WebSocket bridging path if and only if the value
of the `Upgrade` header case-insensitively equals `websocket` and the value of
the `Connection` header case-insensitively equals `upgrade`; for every other
pair of values the request goes to the dev console, to static serving or to
the not-found response. -/
theorem ServeHTTP_bridge_iff (ConsoleContent License : String) (config : Config) (req : Request) :
    ((ServeHTTP ConsoleContent License config req).isBridge = true ↔
      (equalsIgnoreCase (req.Header.Get "Upgrade") "websocket" = true ∧
        equalsIgnoreCase (req.Header.Get "Connection") "upgrade" = true)) ∧
    ((ServeHTTP ConsoleContent License config req).isBridge = false ↔
      (ServeHTTP ConsoleContent License config req =
          Dispatch.devConsole ".html" config.StartupTime
            (replaceAll ConsoleContent "\x7b\x7blicense\x7d\x7d" License) ∨
        ServeHTTP ConsoleContent License config req = Dispatch.static config.StaticDir ∨
        ServeHTTP ConsoleContent License config req = Dispatch.notFound)) := by
  rw [← upgrade_cond_iff]
  unfold ServeHTTP
  by_cases hc : (toLower (req.Header.Get "Upgrade") == "websocket" &&
      toLower (req.Header.Get "Connection") == "upgrade") = true
  · simp [hc, Dispatch.isBridge]
  · by_cases hd : config.DevConsole = true
    · simp [hc, hd, Dispatch.isBridge]
    · by_cases hs : config.ServingStaticContent = true
      · simp [hc, hd, hs, Dispatch.isBridge]
      · simp [hc, hd, hs, Dispatch.isBridge]

theorem ServeHTTP_substring_match :
    ServeHTTP "" "" ⟨"", [], false, "", false, "", false, 0, false, []⟩
      ⟨[("Upgrade", ["websocket, keep-alive"]), ("Connection", ["Upgrade"])], "", "", ""⟩ =
      Dispatch.notFound := by decide

theorem ServeHTTP_mixed_case :
    (ServeHTTP "" "" ⟨"", [], false, "", false, "", false, 0, false, []⟩
      ⟨[("Upgrade", ["WebSocket"]), ("Connection", ["UPGRADE"])], "", "", ""⟩).isBridge = true := by
  decide

theorem ServeHTTP_absent_headers :
    ServeHTTP "" "" ⟨"", [], false, "", false, "", false, 0, false, []⟩ ⟨[], "", "", ""⟩ =
      Dispatch.notFound := by decide

theorem ServeHTTP_kelvin_sign :
    toLower "websoc\u212Aet" = "websocket" ∧
    equalsIgnoreCase "websoc\u212Aet" "websocket" = true := by
  decide

/-- C8. On the bridging path `ServeHTTP` hands the request to the WebSocket
handler with the `Origin` header set to `file:` when its value is exactly
`null`, and with the header map unchanged for every other value (an absent
header included); the entries of all other keys, and the other fields of the
request, are the same in both cases. -/
theorem ServeHTTP_origin (ConsoleContent License : String) (config : Config) (req : Request)
    (hup : equalsIgnoreCase (req.Header.Get "Upgrade") "websocket" = true)
    (hconn : equalsIgnoreCase (req.Header.Get "Connection") "upgrade" = true) :
    ∃ req2 : Request,
      ServeHTTP ConsoleContent License config req = Dispatch.webSocket req2 ∧
      (req.Header.Get "Origin" = "null" →
        req2.Header.values "Origin" = ["file:"] ∧ req2.Header.Get "Origin" = "file:") ∧
      (req.Header.Get "Origin" ≠ "null" → req2 = req) ∧
      (∀ key : String, key ≠ "Origin" → req2.Header.values key = req.Header.values key) ∧
      req2.RemoteAddr = req.RemoteAddr ∧ req2.Path = req.Path ∧
      req2.RequestURI = req.RequestURI := by
  have hc := (upgrade_cond_iff req.Header).2 ⟨hup, hconn⟩
  by_cases ho : req.Header.Get "Origin" = "null"
  · refine ⟨{ req with Header := req.Header.Set "Origin" "file:" }, ?_, ?_, ?_, ?_, rfl, rfl, rfl⟩
    · simp [ServeHTTP, hc, ho]
    · intro _
      exact ⟨values_Set_same _ _ _, by simp [Header.Get, values_Set_same]⟩
    · intro h
      exact absurd ho h
    · intro key hkey
      exact values_Set_other _ _ _ _ hkey
  · refine ⟨req, ?_, ?_, ?_, ?_, rfl, rfl, rfl⟩
    · simp [ServeHTTP, hc, ho]
    · intro h
      exact absurd h ho
    · intro _
      rfl
    · intro _ _
      rfl

theorem ServeHTTP_origin_upper_case :
    ServeHTTP "" "" sampleConfig
      ⟨[("Upgrade", ["websocket"]), ("Connection", ["upgrade"]), ("Origin", ["NULL"])], "", "", ""⟩ =
      Dispatch.webSocket
        ⟨[("Upgrade", ["websocket"]), ("Connection", ["upgrade"]), ("Origin", ["NULL"])], "", "", ""⟩ := by
  decide

theorem ServeHTTP_origin_leading_blank :
    ServeHTTP "" "" sampleConfig
      ⟨[("Upgrade", ["websocket"]), ("Connection", ["upgrade"]), ("Origin", [" null"])], "", "", ""⟩ =
      Dispatch.webSocket
        ⟨[("Upgrade", ["websocket"]), ("Connection", ["upgrade"]), ("Origin", [" null"])], "", "", ""⟩ := by
  decide

theorem ServeHTTP_origin_absent :
    ServeHTTP "" "" sampleConfig
      ⟨[("Upgrade", ["websocket"]), ("Connection", ["upgrade"])], "", "", ""⟩ =
      Dispatch.webSocket ⟨[("Upgrade", ["websocket"]), ("Connection", ["upgrade"])], "", "", ""⟩ := by
  decide

theorem ServeHTTP_origin_null :
    ServeHTTP "" "" sampleConfig sampleRequest =
      Dispatch.webSocket
        ⟨[("Origin", ["file:"]), ("Upgrade", ["WebSocket"]), ("Connection", ["Upgrade"])],
          "192.0.2.1:4711", "/echo", "/echo?x=1"⟩ := by
  decide

/-- C9. A request that is not an upgrade handshake goes to exactly one handler,
by strict precedence: the dev console, with modification time
`Config.StartupTime`, when `Config.DevConsole` is set, whatever
`ServingStaticContent` is; otherwise static serving from `Config.StaticDir`
when `Config.ServingStaticContent` is set; otherwise the not-found response. -/
theorem ServeHTTP_fallthrough (ConsoleContent License : String) (config : Config) (req : Request)
    (hnot : ¬ (equalsIgnoreCase (req.Header.Get "Upgrade") "websocket" = true ∧
      equalsIgnoreCase (req.Header.Get "Connection") "upgrade" = true)) :
    (config.DevConsole = true →
      ServeHTTP ConsoleContent License config req =
        Dispatch.devConsole ".html" config.StartupTime
          (replaceAll ConsoleContent "\x7b\x7blicense\x7d\x7d" License)) ∧
    (config.DevConsole = false → config.ServingStaticContent = true →
      ServeHTTP ConsoleContent License config req = Dispatch.static config.StaticDir) ∧
    (config.DevConsole = false → config.ServingStaticContent = false →
      ServeHTTP ConsoleContent License config req = Dispatch.notFound) := by
  have hc : ¬ (toLower (req.Header.Get "Upgrade") == "websocket" &&
      toLower (req.Header.Get "Connection") == "upgrade") = true :=
    fun h => hnot ((upgrade_cond_iff req.Header).1 h)
  refine ⟨?_, ?_, ?_⟩
  · intro hd
    simp [ServeHTTP, hc, hd]
  · intro hd hs
    simp [ServeHTTP, hc, hd, hs]
  · intro hd hs
    simp [ServeHTTP, hc, hd, hs]

/-! ## The bridging loop -/

theorem pipeLoop_order (wsSend processSend : Nat → String → Bool) (picks : List Side) :
    ∀ (processOut socketOut : Chan) (i j : Nat),
      sentToSocket (pipeLoop wsSend processSend picks processOut socketOut i j).1 <+: processOut.msgs ∧
      sentToProcess (pipeLoop wsSend processSend picks processOut socketOut i j).1 <+: socketOut.msgs := by
  induction picks with
  | nil =>
    intro p s i j
    simp [pipeLoop, sentToSocket, sentToProcess]
  | cons pick picks ih =>
    intro p s i j
    unfold pipeLoop
    cases select pick p s with
    | none => simp [sentToSocket, sentToProcess]
    | some side =>
      cases side with
      | process =>
        obtain ⟨pm, pc⟩ := p
        cases pm with
        | nil => simp [sentToSocket, sentToProcess]
        | cons m rest =>
          by_cases hok : wsSend i m = true
          · have h := ih ⟨rest, pc⟩ s (i + 1) j
            simp only [hok, Bool.not_true, Bool.false_eq_true, if_false, List.cons_append,
              List.nil_append, sentToSocket, sentToProcess]
            exact ⟨(List.prefix_cons_inj m).2 h.1, h.2⟩
          · simp [hok, sentToSocket, sentToProcess]
      | socket =>
        obtain ⟨sm, sc⟩ := s
        cases sm with
        | nil => simp [sentToSocket, sentToProcess]
        | cons m rest =>
          have h := ih p ⟨rest, sc⟩ i (j + 1)
          simp only [List.cons_append, List.nil_append, sentToSocket, sentToProcess]
          exact ⟨h.1, (List.prefix_cons_inj m).2 h.2⟩

/-- C2. Whatever the two endpoints deliver, whatever the sends return and
whichever ready case `select` picks at each iteration, the messages
`pipeEndpoints` passes to `wsEndpoint.Send` are, in order and verbatim, a prefix
of the process's output, and the messages it passes to `process.Send` are, in
order and verbatim, a prefix of the network endpoint's output. -/
theorem pipeEndpoints_order (b : Bridge) :
    sentToSocket (pipeEndpoints b).1 <+: b.processOut.msgs ∧
    sentToProcess (pipeEndpoints b).1 <+: b.socketOut.msgs :=
  pipeLoop_order b.wsSend b.processSend b.picks b.processOut b.socketOut 0 0

theorem pipeLoop_stops_on_wsSend_failure (wsSend processSend : Nat → String → Bool)
    (picks : List Side) :
    ∀ (processOut socketOut : Chan) (i j : Nat) (es : List Event),
      afterFailedWsSend (pipeLoop wsSend processSend picks processOut socketOut i j).1 = some es →
      es = [] ∧ (pipeLoop wsSend processSend picks processOut socketOut i j).2 = .returned := by
  induction picks with
  | nil =>
    intro p s i j es
    simp [pipeLoop, afterFailedWsSend]
  | cons pick picks ih =>
    intro p s i j es
    unfold pipeLoop
    cases select pick p s with
    | none => simp [afterFailedWsSend]
    | some side =>
      cases side with
      | process =>
        obtain ⟨pm, pc⟩ := p
        cases pm with
        | nil => simp [afterFailedWsSend]
        | cons m rest =>
          by_cases hok : wsSend i m = true
          · simp only [hok, Bool.not_true, Bool.false_eq_true, if_false, List.cons_append,
              List.nil_append, afterFailedWsSend]
            exact ih ⟨rest, pc⟩ s (i + 1) j es
          · have hok2 : wsSend i m = false := by simpa using hok
            simp only [hok2, Bool.not_false, if_true, afterFailedWsSend]
            intro h
            exact ⟨by simpa using h.symm, trivial⟩
      | socket =>
        obtain ⟨sm, sc⟩ := s
        cases sm with
        | nil => simp [afterFailedWsSend]
        | cons m rest =>
          simp only [List.cons_append, List.nil_append, afterFailedWsSend]
          exact ih p ⟨rest, sc⟩ i (j + 1) es

/-- In the direction from the process to the socket the loop does stop at a
failed send: the failed call of `wsEndpoint.Send` is the last event of the
trace and `pipeEndpoints` has returned. -/
theorem pipeEndpoints_stops_on_wsSend_failure (b : Bridge) (es : List Event)
    (h : afterFailedWsSend (pipeEndpoints b).1 = some es) :
    es = [] ∧ (pipeEndpoints b).2 = .returned :=
  pipeLoop_stops_on_wsSend_failure b.wsSend b.processSend b.picks b.processOut b.socketOut 0 0 es h

/-- C3, at the failing input. The network endpoint delivers `a` then `b` and
closes, and every `process.Send` reports failure: after the failed send of `a`
the loop goes on, passes `b` to `process.Send` as well, and returns only when
the socket's channel is closed. -/
theorem pipeEndpoints_ignores_process_send_failure :
    pipeEndpoints ⟨⟨[], false⟩, ⟨["a", "b"], true⟩, fun _ _ => true, fun _ _ => false,
        [.socket, .socket, .socket]⟩ =
      ([Event.log .trace "recv->" "%s", Event.processSend "a" false,
        Event.log .trace "recv->" "%s", Event.processSend "b" false,
        Event.log .trace "websocket" "WebSocket connection closed"], .returned) ∧
    afterFailedProcessSend
      (pipeEndpoints ⟨⟨[], false⟩, ⟨["a", "b"], true⟩, fun _ _ => true, fun _ _ => false,
        [.socket, .socket, .socket]⟩).1 =
      some [Event.log .trace "recv->" "%s", Event.processSend "b" false,
        Event.log .trace "websocket" "WebSocket connection closed"] ∧
    relays [Event.log .trace "recv->" "%s", Event.processSend "b" false,
        Event.log .trace "websocket" "WebSocket connection closed"] = true := by
  decide

theorem select_none (pick : Side) (p s : Chan) (h : select pick p s = none) :
    p.ready = false ∧ s.ready = false := by
  cases pick <;> simp only [select] at h <;> split at h <;> try split at h
  all_goals simp_all

theorem pipeLoop_returns (wsSend processSend : Nat → String → Bool) (picks : List Side) :
    ∀ (processOut socketOut : Chan) (i j : Nat),
      processOut.msgs.length + socketOut.msgs.length < picks.length →
      (processOut.closes = true ∨ socketOut.closes = true) →
      (pipeLoop wsSend processSend picks processOut socketOut i j).2 = .returned := by
  induction picks with
  | nil =>
    intro p s i j hlen
    simp at hlen
  | cons pick picks ih =>
    intro p s i j hlen hclose
    unfold pipeLoop
    cases hsel : select pick p s with
    | none =>
      have h := select_none pick p s hsel
      simp [Chan.ready] at h
      rcases hclose with hc | hc
      · simp [hc] at h
      · simp [hc] at h
    | some side =>
      cases side with
      | process =>
        obtain ⟨pm, pc⟩ := p
        cases pm with
        | nil => simp
        | cons m rest =>
          by_cases hok : wsSend i m = true
          · simp only [hok, Bool.not_true, Bool.false_eq_true, if_false]
            apply ih ⟨rest, pc⟩ s (i + 1) j
            · simp only [List.length_cons] at hlen ⊢
              omega
            · exact hclose
          · simp [hok]
      | socket =>
        obtain ⟨sm, sc⟩ := s
        cases sm with
        | nil => simp
        | cons m rest =>
          simp only []
          apply ih p ⟨rest, sc⟩ i (j + 1)
          · simp only [List.length_cons] at hlen ⊢
            omega
          · exact hclose

/-- When one of the two readers closes its channel, `pipeEndpoints` returns
within one iteration more than there are messages to relay. -/
theorem pipeEndpoints_returns (b : Bridge)
    (hlen : b.processOut.msgs.length + b.socketOut.msgs.length < b.picks.length)
    (hclose : b.processOut.closes = true ∨ b.socketOut.closes = true) :
    (pipeEndpoints b).2 = .returned :=
  pipeLoop_returns b.wsSend b.processSend b.picks b.processOut b.socketOut 0 0 hlen hclose

theorem pipeLoop_inPipe (wsSend processSend : Nat → String → Bool) (picks : List Side) :
    ∀ (processOut socketOut : Chan) (i j : Nat),
      ∀ e ∈ (pipeLoop wsSend processSend picks processOut socketOut i j).1, e.inPipe = true := by
  induction picks with
  | nil =>
    intro p s i j
    simp [pipeLoop]
  | cons pick picks ih =>
    intro p s i j
    unfold pipeLoop
    cases select pick p s with
    | none => simp
    | some side =>
      cases side with
      | process =>
        obtain ⟨pm, pc⟩ := p
        cases pm with
        | nil => simp [Event.inPipe]
        | cons m rest =>
          by_cases hok : wsSend i m = true
          · simp only [hok, Bool.not_true, Bool.false_eq_true, if_false, List.cons_append,
              List.nil_append, List.mem_cons]
            rintro e (rfl | rfl | he)
            · rfl
            · rfl
            · exact ih ⟨rest, pc⟩ s (i + 1) j e he
          · simp [hok, Event.inPipe]
      | socket =>
        obtain ⟨sm, sc⟩ := s
        cases sm with
        | nil => simp [Event.inPipe]
        | cons m rest =>
          simp only [List.cons_append, List.nil_append, List.mem_cons]
          rintro e (rfl | rfl | he)
          · rfl
          · rfl
          · exact ih p ⟨rest, sc⟩ i (j + 1) e he

theorem pipeEndpoints_inPipe (b : Bridge) : ∀ e ∈ (pipeEndpoints b).1, e.inPipe = true :=
  pipeLoop_inPipe b.wsSend b.processSend b.picks b.processOut b.socketOut 0 0

/-! ## The session -/

theorem not_mem_pipeEndpoints (b : Bridge) (e : Event) (he : e.inPipe = false) :
    e ∉ (pipeEndpoints b).1 := by
  intro hmem
  have h := pipeEndpoints_inPipe b e hmem
  rw [he] at h
  exact Bool.false_ne_true h

/-- The shape of a session whose process launched and whose bridging loop
returned: the three deferred calls end the trace, in the reverse of the order
in which they were deferred, and none of them occurs earlier. -/
theorem acceptWebSocket_launched_trace (c : Collaborators) (b : Bridge) (ws : Request)
    (config : Config) (hl : launched c ws config = true)
    (hp : (pipeEndpoints b).2 = .returned) :
    ∃ pre : List Event,
      acceptWebSocket c b ws config =
        ⟨pre ++ [Event.processTerminate, DISCONNECT, Event.wsClose], true⟩ ∧
      Event.processTerminate ∉ pre ∧ DISCONNECT ∉ pre ∧ Event.wsClose ∉ pre := by
  unfold launched remoteDetailsFails parsePathFails createEnvFails launchCmdFails at hl
  unfold acceptWebSocket
  rcases hpe : pipeEndpoints b with ⟨tp, st⟩
  rw [hpe] at hp
  simp only at hp
  subst hp
  have n1 := not_mem_pipeEndpoints b Event.processTerminate rfl
  have n2 := not_mem_pipeEndpoints b DISCONNECT rfl
  have n3 := not_mem_pipeEndpoints b Event.wsClose rfl
  rw [hpe] at n1 n2 n3
  simp only at n1 n2 n3
  cases h1 : c.remoteDetails ws config with
  | error e => simp [h1, isError] at hl
  | ok r =>
    obtain ⟨r1, remoteHost, r3⟩ := r
    cases h2 : c.parsePath ws.Path config with
    | error e => simp [h2, isError] at hl
    | ok urlInfo =>
      cases h3 : c.createEnv ws config urlInfo c.generateId with
      | error e => simp [h2, h3, isError] at hl
      | ok env =>
        cases h4 : c.launchCmd (if config.UsingScriptDir then urlInfo.FilePath else config.CommandName)
            config.CommandArgs env with
        | error e => simp [h2, h3, h4, isError] at hl
        | ok l =>
          simp only [h1, h2, h3, h4, hpe, returnWith, DISCONNECT]
          refine ⟨_, rfl, ?_⟩
          simp only [DISCONNECT] at n2
          simp [n1, n2, n3]

theorem happensBefore_append (a b : Event) (pre rest : List Event) (ha : a ∉ pre)
    (hb : b ∉ pre) : happensBefore a b (pre ++ rest) = happensBefore a b rest := by
  induction pre with
  | nil => rfl
  | cons e es ih =>
    have hea : ¬ e = a := fun h => ha (by simp [h])
    have heb : ¬ e = b := fun h => hb (by simp [h])
    have ha2 : a ∉ es := fun h => ha (List.mem_cons_of_mem e h)
    have hb2 : b ∉ es := fun h => hb (List.mem_cons_of_mem e h)
    simp only [List.cons_append, happensBefore, hea, heb, if_false]
    exact ih ha2 hb2

/-- C4. When the process launched and the bridging loop returns, for whichever
reason, `acceptWebSocket` returns having called `process.Terminate` exactly
once, `ws.Close` exactly once, and having emitted the `DISCONNECT` event
exactly once. -/
theorem acceptWebSocket_teardown_once (c : Collaborators) (b : Bridge) (ws : Request)
    (config : Config) (hl : launched c ws config = true)
    (hp : (pipeEndpoints b).2 = .returned) :
    (acceptWebSocket c b ws config).returned = true ∧
    (acceptWebSocket c b ws config).trace.count Event.processTerminate = 1 ∧
    (acceptWebSocket c b ws config).trace.count Event.wsClose = 1 ∧
    (acceptWebSocket c b ws config).trace.count DISCONNECT = 1 := by
  obtain ⟨pre, heq, n1, n2, n3⟩ := acceptWebSocket_launched_trace c b ws config hl hp
  rw [heq]
  refine ⟨rfl, ?_, ?_, ?_⟩
  · simp [List.count_append, List.count_eq_zero_of_not_mem n1, List.count_cons, DISCONNECT]
  · simp [List.count_append, List.count_eq_zero_of_not_mem n3, List.count_cons, DISCONNECT]
  · simp only [List.count_append, List.count_eq_zero_of_not_mem n2]
    simp [List.count_cons, DISCONNECT]

/-- C5, as amended. On teardown of a bridged session, whichever side ended the
bridging loop, `process.Terminate` is called before the `DISCONNECT` event is
logged, and `ws.Close` is called after it: the deferred calls run in the
reverse of the order in which they were deferred. -/
theorem acceptWebSocket_teardown_order (c : Collaborators) (b : Bridge) (ws : Request)
    (config : Config) (hl : launched c ws config = true)
    (hp : (pipeEndpoints b).2 = .returned) :
    happensBefore Event.processTerminate DISCONNECT (acceptWebSocket c b ws config).trace = true ∧
    happensBefore DISCONNECT Event.wsClose (acceptWebSocket c b ws config).trace = true := by
  obtain ⟨pre, heq, n1, n2, n3⟩ := acceptWebSocket_launched_trace c b ws config hl hp
  rw [heq]
  refine ⟨?_, ?_⟩
  · rw [happensBefore_append _ _ _ _ n1 n2]
    decide
  · rw [happensBefore_append _ _ _ _ n2 n3]
    decide

/-- C5, the claim as stated fails. In a session whose process launched and
whose bridging loop returned, `ws.Close` is not called before the
`DISCONNECT` event is logged: it is called after it. -/
theorem acceptWebSocket_close_after_disconnect :
    launched sampleCollaborators sampleRequest sampleConfig = true ∧
    (acceptWebSocket sampleCollaborators sampleBridge sampleRequest sampleConfig).returned = true ∧
    ¬ (happensBefore Event.processTerminate DISCONNECT
          (acceptWebSocket sampleCollaborators sampleBridge sampleRequest sampleConfig).trace = true ∧
        happensBefore Event.wsClose DISCONNECT
          (acceptWebSocket sampleCollaborators sampleBridge sampleRequest sampleConfig).trace = true) := by
  decide

/-- C6, the claim as stated fails. When `remoteDetails` returns an error,
`acceptWebSocket` returns without emitting the `DISCONNECT` event: its whole
trace is the error log and the deferred `ws.Close`. -/
theorem acceptWebSocket_no_disconnect_on_bad_address :
    acceptWebSocket badAddressCollaborators sampleBridge sampleRequest sampleConfig =
      ⟨[Event.log .error "session" "Could not understand remote address '%s': %s", Event.wsClose],
        true⟩ ∧
    DISCONNECT ∉
      (acceptWebSocket badAddressCollaborators sampleBridge sampleRequest sampleConfig).trace := by
  decide

/-- C6, as amended. When `remoteDetails` succeeds, on every exit path of
`acceptWebSocket` (path-resolution error, environment-construction error,
launch error, or the return of the bridging loop) the function returns with
the `DISCONNECT` event emitted; when `remoteDetails` returns an error, the
function returns with neither `CONNECT` nor `DISCONNECT` emitted. -/
theorem acceptWebSocket_disconnect (c : Collaborators) (b : Bridge) (ws : Request)
    (config : Config) :
    (remoteDetailsFails c ws config = false →
      (launched c ws config = false ∨ (pipeEndpoints b).2 = .returned) →
      (acceptWebSocket c b ws config).returned = true ∧
      DISCONNECT ∈ (acceptWebSocket c b ws config).trace) ∧
    (remoteDetailsFails c ws config = true →
      (acceptWebSocket c b ws config).returned = true ∧
      CONNECT ∉ (acceptWebSocket c b ws config).trace ∧
      DISCONNECT ∉ (acceptWebSocket c b ws config).trace) := by
  refine ⟨?_, ?_⟩
  · intro hr hexit
    by_cases hl : launched c ws config = true
    · have hp : (pipeEndpoints b).2 = .returned := by
        rcases hexit with h | h
        · rw [hl] at h
          exact absurd h (by decide)
        · exact h
      obtain ⟨pre, heq, _, n2, _⟩ := acceptWebSocket_launched_trace c b ws config hl hp
      rw [heq]
      exact ⟨rfl, by simp⟩
    · unfold launched remoteDetailsFails parsePathFails createEnvFails launchCmdFails at hl
      unfold remoteDetailsFails at hr
      unfold acceptWebSocket
      cases h1 : c.remoteDetails ws config with
      | error e => simp [h1, isError] at hr
      | ok r =>
        obtain ⟨r1, remoteHost, r3⟩ := r
        cases h2 : c.parsePath ws.Path config with
        | error e => simp [returnWith, DISCONNECT]
        | ok urlInfo =>
          cases h3 : c.createEnv ws config urlInfo c.generateId with
          | error e => simp [h3, returnWith, DISCONNECT]
          | ok env =>
            cases h4 : c.launchCmd
                (if config.UsingScriptDir then urlInfo.FilePath else config.CommandName)
                config.CommandArgs env with
            | error e => simp [h3, h4, returnWith, DISCONNECT]
            | ok l => simp [h1, h2, h3, h4, isError] at hl
  · intro hr
    unfold remoteDetailsFails at hr
    unfold acceptWebSocket
    cases h1 : c.remoteDetails ws config with
    | error e => simp [returnWith, CONNECT, DISCONNECT]
    | ok r => simp [h1, isError] at hr

/-- C7. A failure before the bridge aborts the session with nothing spawned or
wired: when `remoteDetails`, `parsePath` or `createEnv` returns an error,
`launchCmd` is not called; and when one of those or `launchCmd` returns an
error, no endpoint is created, `pipeEndpoints` is not entered,
`process.Terminate` is not called, and the function returns with `ws.Close`
called, once. -/
theorem acceptWebSocket_prebridge_failure (c : Collaborators) (b : Bridge) (ws : Request)
    (config : Config) :
    ((remoteDetailsFails c ws config = true ∨ parsePathFails c ws config = true ∨
        createEnvFails c ws config = true) →
      invokesLaunchCmd (acceptWebSocket c b ws config).trace = false) ∧
    ((remoteDetailsFails c ws config = true ∨ parsePathFails c ws config = true ∨
        createEnvFails c ws config = true ∨ launchCmdFails c ws config = true) →
      createsEndpoint (acceptWebSocket c b ws config).trace = false ∧
      Event.pipeEndpoints ∉ (acceptWebSocket c b ws config).trace ∧
      Event.processTerminate ∉ (acceptWebSocket c b ws config).trace ∧
      (acceptWebSocket c b ws config).trace.count Event.wsClose = 1 ∧
      (acceptWebSocket c b ws config).returned = true) := by
  unfold remoteDetailsFails parsePathFails createEnvFails launchCmdFails
  unfold acceptWebSocket
  cases h1 : c.remoteDetails ws config with
  | error e => simp [returnWith, invokesLaunchCmd, createsEndpoint, List.count_cons]
  | ok r =>
    obtain ⟨r1, remoteHost, r3⟩ := r
    cases h2 : c.parsePath ws.Path config with
    | error e => simp [returnWith, invokesLaunchCmd, createsEndpoint, List.count_cons]
    | ok urlInfo =>
      cases h3 : c.createEnv ws config urlInfo c.generateId with
      | error e => simp [h3, isError, returnWith, invokesLaunchCmd, createsEndpoint, List.count_cons]
      | ok env =>
        cases h4 : c.launchCmd
            (if config.UsingScriptDir then urlInfo.FilePath else config.CommandName)
            config.CommandArgs env with
        | error e =>
          simp [h3, h4, isError, returnWith, invokesLaunchCmd, createsEndpoint, List.count_cons]
        | ok l => simp [h3, h4, isError]

/-! ## Static files -/

/-- What `serveStatic` answers by the kind of the error: the 404 response
when `os.IsNotExist` holds of the error of `os.Stat`; a 403 response when it
does not and `os.Open` fails with an `os.IsPermission` error. In neither case
is file content served. -/
theorem serveStatic_by_error_kind (fs : FileSystem) (urlPath staticRoot : String) :
    (IsNotExist (fs.Stat (fs.Join staticRoot (fs.FromSlash urlPath))) = true →
      (serveStatic fs urlPath staticRoot).1 = NotFound ∧
      (serveStatic fs urlPath staticRoot).1.status = some 404 ∧
      (serveStatic fs urlPath staticRoot).1.servesContent = false) ∧
    (IsNotExist (fs.Stat (fs.Join staticRoot (fs.FromSlash urlPath))) = false →
      ∀ err : OsError, fs.Open (fs.Join staticRoot (fs.FromSlash urlPath)) = .error err →
        err.kind = ErrKind.permission →
        (serveStatic fs urlPath staticRoot).1 = Response.error "permission denied" 403 ∧
        (serveStatic fs urlPath staticRoot).1.status = some 403 ∧
        (serveStatic fs urlPath staticRoot).1.servesContent = false) := by
  refine ⟨?_, ?_⟩
  · intro h
    simp [serveStatic, h, NotFound, Response.status, Response.servesContent]
  · intro h err hopen hkind
    simp [serveStatic, h, hopen, hkind, StatusForbidden, Response.status, Response.servesContent]

theorem serveStatic_by_error_kind_witness :
    (IsNotExist (sampleFileSystem.Stat
        (sampleFileSystem.Join "/srv/static" (sampleFileSystem.FromSlash "/missing.txt"))) = true ∧
      (serveStatic sampleFileSystem "/missing.txt" "/srv/static").1.status = some 404) ∧
    (IsNotExist (sampleFileSystem.Stat
        (sampleFileSystem.Join "/srv/static" (sampleFileSystem.FromSlash "/secret.txt"))) = false ∧
      (serveStatic sampleFileSystem "/secret.txt" "/srv/static").1.status = some 403) :=
  ⟨⟨by decide,
      ((serveStatic_by_error_kind sampleFileSystem "/missing.txt" "/srv/static").1 (by decide)).2.1⟩,
    ⟨by decide,
      ((serveStatic_by_error_kind sampleFileSystem "/secret.txt" "/srv/static").2 (by decide)
        ⟨.permission, "open /srv/static/secret.txt: permission denied"⟩ (by rfl) rfl).2.1⟩⟩

/-- C10, at the failing input. On a disk where `/srv/static/index.txt` is a
regular file, the path `/srv/static/index.txt/foo` does not exist, yet
`serveStatic` answers the request for `/index.txt/foo` with 400 and not with
404: `os.Stat` fails with `ENOTDIR`, which `os.IsNotExist` rejects, and the
error of `os.Open` is then reported as a bad request. -/
theorem serveStatic_not_a_directory :
    pathExists sampleDisk (unixJoin "/srv/static" "/index.txt/foo") = false ∧
    serveStatic sampleFileSystem "/index.txt/foo" "/srv/static" =
      (Response.error "open /srv/static/index.txt/foo: not a directory" 400,
        [Event.log .error "server" "opening %s: %s"]) ∧
    (serveStatic sampleFileSystem "/index.txt/foo" "/srv/static").1 ≠ NotFound ∧
    (serveStatic sampleFileSystem "/index.txt/foo" "/srv/static").1.status ≠ some 404 := by
  decide

theorem serveStatic_missing :
    pathExists sampleDisk (unixJoin "/srv/static" "/missing.txt") = false ∧
    serveStatic sampleFileSystem "/missing.txt" "/srv/static" = (NotFound, []) := by
  decide

theorem serveStatic_unreadable :
    pathExists sampleDisk (unixJoin "/srv/static" "/secret.txt") = true ∧
    serveStatic sampleFileSystem "/secret.txt" "/srv/static" =
      (Response.error "permission denied" 403, []) := by
  decide

theorem serveStatic_ok :
    serveStatic sampleFileSystem "/index.txt" "/srv/static" =
      (Response.serveContent "index.txt" 1700000001 "ok", []) := by
  decide

theorem ServeHTTP_origin_witness :
    (equalsIgnoreCase (sampleRequest.Header.Get "Upgrade") "websocket" = true ∧
      equalsIgnoreCase (sampleRequest.Header.Get "Connection") "upgrade" = true ∧
      sampleRequest.Header.Get "Origin" = "null") ∧
    ∃ req2 : Request,
      ServeHTTP "console" "license" sampleConfig sampleRequest = Dispatch.webSocket req2 ∧
      (sampleRequest.Header.Get "Origin" = "null" →
        req2.Header.values "Origin" = ["file:"] ∧ req2.Header.Get "Origin" = "file:") ∧
      (sampleRequest.Header.Get "Origin" ≠ "null" → req2 = sampleRequest) ∧
      (∀ key : String, key ≠ "Origin" →
        req2.Header.values key = sampleRequest.Header.values key) ∧
      req2.RemoteAddr = sampleRequest.RemoteAddr ∧ req2.Path = sampleRequest.Path ∧
      req2.RequestURI = sampleRequest.RequestURI :=
  ⟨by decide,
    ServeHTTP_origin "console" "license" sampleConfig sampleRequest (by decide) (by decide)⟩

theorem ServeHTTP_fallthrough_witness :
    ¬ (equalsIgnoreCase (plainRequest.Header.Get "Upgrade") "websocket" = true ∧
      equalsIgnoreCase (plainRequest.Header.Get "Connection") "upgrade" = true) ∧
    sampleConfig.DevConsole = false ∧ sampleConfig.ServingStaticContent = true ∧
    ServeHTTP "console" "license" sampleConfig plainRequest = Dispatch.static "/srv/static" :=
  ⟨by decide, by decide, by decide,
    (ServeHTTP_fallthrough "console" "license" sampleConfig plainRequest (by decide)).2.1
      (by decide) (by decide)⟩

theorem acceptWebSocket_teardown_once_witness :
    launched sampleCollaborators sampleRequest sampleConfig = true ∧
    (pipeEndpoints sampleBridge).2 = .returned ∧
    (acceptWebSocket sampleCollaborators sampleBridge sampleRequest sampleConfig).returned = true ∧
    (acceptWebSocket sampleCollaborators sampleBridge sampleRequest sampleConfig).trace.count
      Event.processTerminate = 1 ∧
    (acceptWebSocket sampleCollaborators sampleBridge sampleRequest sampleConfig).trace.count
      Event.wsClose = 1 ∧
    (acceptWebSocket sampleCollaborators sampleBridge sampleRequest sampleConfig).trace.count
      DISCONNECT = 1 :=
  ⟨by decide, by decide,
    acceptWebSocket_teardown_once sampleCollaborators sampleBridge sampleRequest sampleConfig
      (by decide) (by decide)⟩

theorem acceptWebSocket_teardown_order_witness :
    launched sampleCollaborators sampleRequest sampleConfig = true ∧
    (pipeEndpoints sampleBridge).2 = .returned ∧
    happensBefore Event.processTerminate DISCONNECT
      (acceptWebSocket sampleCollaborators sampleBridge sampleRequest sampleConfig).trace = true ∧
    happensBefore DISCONNECT Event.wsClose
      (acceptWebSocket sampleCollaborators sampleBridge sampleRequest sampleConfig).trace = true :=
  ⟨by decide, by decide,
    acceptWebSocket_teardown_order sampleCollaborators sampleBridge sampleRequest sampleConfig
      (by decide) (by decide)⟩

theorem acceptWebSocket_disconnect_witness :
    (remoteDetailsFails noSpawnCollaborators sampleRequest sampleConfig = false ∧
      launched noSpawnCollaborators sampleRequest sampleConfig = false ∧
      (acceptWebSocket noSpawnCollaborators sampleBridge sampleRequest sampleConfig).returned = true ∧
      DISCONNECT ∈
        (acceptWebSocket noSpawnCollaborators sampleBridge sampleRequest sampleConfig).trace) ∧
    (remoteDetailsFails sampleCollaborators sampleRequest sampleConfig = false ∧
      (pipeEndpoints sampleBridge).2 = .returned ∧
      (acceptWebSocket sampleCollaborators sampleBridge sampleRequest sampleConfig).returned = true ∧
      DISCONNECT ∈
        (acceptWebSocket sampleCollaborators sampleBridge sampleRequest sampleConfig).trace) ∧
    (remoteDetailsFails badAddressCollaborators sampleRequest sampleConfig = true ∧
      DISCONNECT ∉
        (acceptWebSocket badAddressCollaborators sampleBridge sampleRequest sampleConfig).trace) :=
  ⟨⟨by decide, by decide,
      (acceptWebSocket_disconnect noSpawnCollaborators sampleBridge sampleRequest sampleConfig).1
        (by decide) (Or.inl (by decide))⟩,
    ⟨by decide, by decide,
      (acceptWebSocket_disconnect sampleCollaborators sampleBridge sampleRequest sampleConfig).1
        (by decide) (Or.inr (by decide))⟩,
    ⟨by decide,
      ((acceptWebSocket_disconnect badAddressCollaborators sampleBridge sampleRequest
        sampleConfig).2 (by decide)).2.2⟩⟩

theorem acceptWebSocket_prebridge_failure_witness :
    (remoteDetailsFails badAddressCollaborators sampleRequest sampleConfig = true ∧
      invokesLaunchCmd
        (acceptWebSocket badAddressCollaborators sampleBridge sampleRequest sampleConfig).trace =
        false) ∧
    (launchCmdFails noSpawnCollaborators sampleRequest sampleConfig = true ∧
      createsEndpoint
        (acceptWebSocket noSpawnCollaborators sampleBridge sampleRequest sampleConfig).trace =
        false ∧
      Event.pipeEndpoints ∉
        (acceptWebSocket noSpawnCollaborators sampleBridge sampleRequest sampleConfig).trace ∧
      Event.processTerminate ∉
        (acceptWebSocket noSpawnCollaborators sampleBridge sampleRequest sampleConfig).trace ∧
      (acceptWebSocket noSpawnCollaborators sampleBridge sampleRequest sampleConfig).trace.count
        Event.wsClose = 1 ∧
      (acceptWebSocket noSpawnCollaborators sampleBridge sampleRequest sampleConfig).returned =
        true) :=
  ⟨⟨by decide,
      (acceptWebSocket_prebridge_failure badAddressCollaborators sampleBridge sampleRequest
        sampleConfig).1 (Or.inl (by decide))⟩,
    ⟨by decide,
      (acceptWebSocket_prebridge_failure noSpawnCollaborators sampleBridge sampleRequest
        sampleConfig).2 (Or.inr (Or.inr (Or.inr (by decide))))⟩⟩

theorem pipeEndpoints_returns_witness :
    (pipeEndpoints sampleBridge).2 = .returned :=
  pipeEndpoints_returns sampleBridge (by decide) (by decide)

end Websocketd
